import Mathlib

/-!
Verification of the auth-system repository against its specification.

The repository configures a third-party authentication library behind an
Express server.  Two parts are formalised here:

1. The OAuth State Guard (state token minting, one-time consumption,
   background expiry sweep).  Its implementation lives outside the files
   under src/ (only its configuration appears there), so the guard is
   modelled from the specification's own description, as flagged on each
   definition.

2. The environment-variable validation performed at module load by the
   auth configuration (src/src/auth.js): the BETTER_AUTH_SECRET length
   check, and the production checks on BASE_URL and ALLOWED_ORIGINS.
   These are translated directly from the JavaScript source; JavaScript
   truthiness (undefined and the empty string are both falsy) is modelled
   by Option String with an explicit emptiness test.
-/

namespace AuthSystem

/-- A stored OAuth state entry (spec §3): the random token used as key,
its creation timestamp, and the request context it binds. -/
structure StateEntry where
  token : String
  createdAt : Nat
  callbackURL : String
  provider : String
  deriving Repr, DecidableEq

/-- The process-wide state store (spec §3): a finite mapping from token to
entry, represented as a list of entries with token as lookup key. -/
abbrev StateStore := List StateEntry

/-- Look up the entry whose token equals t. -/
def lookupToken (t : String) (s : StateStore) : Option StateEntry :=
  s.find? (fun e => e.token == t)

/-- Remove every entry whose token equals t. -/
def removeToken (t : String) (s : StateStore) : StateStore :=
  s.filter (fun e => e.token != t)

/-- Expiry threshold for state entries, in milliseconds (spec §4: 10 minutes). -/
def expiryThresholdMs : Nat := 10 * 60 * 1000

/-- Interval of the background sweep, in milliseconds (spec §4: 5 minutes). -/
def sweepIntervalMs : Nat := 5 * 60 * 1000

/-- The base64url alphabet: URL-safe, 64 characters, no padding character. -/
def b64urlAlphabet : List Char :=
  ['A', 'B', 'C', 'D', 'E', 'F', 'G', 'H', 'I', 'J', 'K', 'L', 'M',
   'N', 'O', 'P', 'Q', 'R', 'S', 'T', 'U', 'V', 'W', 'X', 'Y', 'Z',
   'a', 'b', 'c', 'd', 'e', 'f', 'g', 'h', 'i', 'j', 'k', 'l', 'm',
   'n', 'o', 'p', 'q', 'r', 's', 't', 'u', 'v', 'w', 'x', 'y', 'z',
   '0', '1', '2', '3', '4', '5', '6', '7', '8', '9', '-', '_']

/-- The base64url digit for a 6-bit value. -/
def b64Char (n : Nat) : Char :=
  b64urlAlphabet.get ⟨n % 64, by
    have h64 : b64urlAlphabet.length = 64 := by decide
    rw [h64]
    exact Nat.mod_lt _ (by decide)⟩

/-- Base64url encoding of a byte list, without padding: 3-byte groups map
to 4 digits, a trailing group of 1 or 2 bytes maps to 2 or 3 digits. -/
def base64urlEncode : List Nat → List Char
  | [] => []
  | [b1] => [b64Char (b1 / 4), b64Char (b1 % 4 * 16)]
  | [b1, b2] =>
      [b64Char (b1 / 4), b64Char (b1 % 4 * 16 + b2 / 16), b64Char (b2 % 16 * 4)]
  | b1 :: b2 :: b3 :: rest =>
      b64Char (b1 / 4) :: b64Char (b1 % 4 * 16 + b2 / 16) ::
      b64Char (b2 % 16 * 4 + b3 / 64) :: b64Char (b3 % 64) ::
      base64urlEncode rest

/-- Modelled from the spec: token minting in beginFlow (spec §4.1).  The
entropy bytes are supplied by the caller, standing for the output of the
cryptographically secure random source the spec mandates (the reference
draws 32 random bytes); the token is their base64url encoding. -/
def mintToken (bytes : List Nat) : String :=
  ⟨base64urlEncode bytes⟩

/-- Modelled from the spec: beginFlow(provider, callbackURL) (spec §4.1),
whose implementation is not among the source files under src/.  It mints a
token from the secure random bytes and inserts the new StateEntry with
createdAt = now; the token is returned for embedding as the OAuth state
parameter. -/
def beginFlow (bytes : List Nat) (now : Nat) (provider callbackURL : String)
    (s : StateStore) : String × StateStore :=
  let t := mintToken bytes
  (t, ⟨t, now, callbackURL, provider⟩ :: s)

/-- Rejection reasons of completeFlow (spec §4.1). -/
inductive RejectReason where
  | missingState
  | unknownState
  deriving Repr, DecidableEq

/-- Outcome of completeFlow: the matched entry, or a structured rejection. -/
inductive FlowResult where
  | success (e : StateEntry)
  | rejected (r : RejectReason)
  deriving Repr, DecidableEq

/-- Modelled from the spec: completeFlow(token) (spec §4.1), whose
implementation is not among the source files under src/.  An absent
(none) or empty token is rejected as missing state; a token found in the
store is removed (one-time use) and the matched entry returned; a token
not found is rejected as unknown state.  The function is total: rejection
is a returned outcome, never a thrown fault. -/
def completeFlow (token : Option String) (s : StateStore) :
    FlowResult × StateStore :=
  match token with
  | none => (.rejected .missingState, s)
  | some t =>
    if t = "" then (.rejected .missingState, s)
    else
      match lookupToken t s with
      | some e => (.success e, removeToken t s)
      | none => (.rejected .unknownState, s)

/-- Modelled from the spec: one run of the background expiry sweep
(spec §4.1), whose implementation is not among the source files under
src/.  It removes exactly the entries whose age now - createdAt exceeds
the expiry threshold. -/
def sweepExpired (now : Nat) (s : StateStore) : StateStore :=
  s.filter (fun e => decide (now - e.createdAt ≤ expiryThresholdMs))

/-- Results of n sequential completeFlow calls with the same token: the
serialisation of n concurrent callback attempts, each take being atomic
(spec §5). -/
def completeN (token : Option String) : Nat → StateStore → List FlowResult × StateStore
  | 0, s => ([], s)
  | n + 1, s =>
    let p := completeFlow token s
    let q := completeN token n p.2
    (p.1 :: q.1, q.2)

/-- Whether a flow outcome is a success. -/
def isSuccess : FlowResult → Bool
  | .success _ => true
  | .rejected _ => false

/-- An HTTP request as the interception points see it (spec §6): method,
headers, URL, a JSON object body, and query parameters, the two latter as
key-value lists. -/
structure Request where
  method : String
  headers : List (String × String)
  url : String
  body : List (String × String)
  query : List (String × String)
  deriving Repr, DecidableEq

/-- The state parameter of a callback request's query string, if present. -/
def extractState (req : Request) : Option String :=
  (req.query.find? (fun kv => kv.1 == "state")).map Prod.snd

/-- Modelled from the spec: the callback interception point (spec §6),
whose implementation is not among the source files under src/.  The guard
runs completeFlow on the state query parameter, reports the outcome, and
forwards the request unmodified regardless of the outcome. -/
def callbackIntercept (req : Request) (s : StateStore) :
    FlowResult × Request × StateStore :=
  let p := completeFlow (extractState req) s
  (p.1, req, p.2)

/-- Modelled from the spec: the sign-in interception point (spec §6),
whose implementation is not among the source files under src/.  The
forwarded request keeps the method, headers and URL, and its JSON body is
the original body augmented with a state field set to the minted token. -/
def signinIntercept (req : Request) (token : String) : Request :=
  { req with body := req.body ++ [("state", token)] }

/-!
Environment-variable validation of the auth configuration module
(src/src/auth.js, lines 8-35, identical logic in src/unnamed/part_001
lines 14-50).  Each field is computed by an immediately-invoked function
at module load, so a throw happens at startup, before any request is
served.  A JavaScript environment variable is modelled as Option String;
JavaScript truthiness makes both undefined and the empty string falsy. -/

/-- JavaScript truthiness of an environment variable value: false exactly
when the variable is unset or set to the empty string. -/
def truthy : Option String → Bool
  | none => false
  | some s => !(s == "")

/-- src/src/auth.js lines 8-16: the secret initialiser.  Throws when
BETTER_AUTH_SECRET is falsy (unset or empty) or shorter than 32
characters; otherwise returns the value unchanged.  Except.error models
the thrown Error. -/
def secretInit (betterAuthSecret : Option String) : Except String String :=
  match betterAuthSecret with
  | none =>
      .error "BETTER_AUTH_SECRET environment variable is required and must be at least 32 characters"
  | some s =>
      if s = "" then
        .error "BETTER_AUTH_SECRET environment variable is required and must be at least 32 characters"
      else if s.length < 32 then
        .error "BETTER_AUTH_SECRET must be at least 32 characters long"
      else .ok s

/-- Development fallback for BASE_URL (src/src/auth.js line 19). -/
def defaultBaseURL : String := "http://localhost:3002"

/-- Development fallback for ALLOWED_ORIGINS (src/src/auth.js line 30). -/
def defaultOrigins : List String :=
  ["http://localhost:8887", "http://localhost:8888"]

/-- JavaScript String.prototype.split with separator comma: the split of
the empty string is the singleton list of the empty string, and adjacent
commas yield empty segments. -/
def splitComma : List Char → List Char → List (List Char)
  | [], acc => [acc.reverse]
  | c :: rest, acc =>
      if c = ',' then acc.reverse :: splitComma rest []
      else splitComma rest (c :: acc)

/-- JavaScript String.prototype.trim: drop whitespace from both ends. -/
def trimChars (l : List Char) : List Char :=
  (((l.dropWhile Char.isWhitespace).reverse.dropWhile Char.isWhitespace).reverse)

/-- ALLOWED_ORIGINS parsing (src/src/auth.js line 34): split on commas and
trim whitespace from each origin. -/
def splitTrim (s : String) : List String :=
  (splitComma s.data []).map (fun l => String.mk (trimChars l))

/-- src/src/auth.js lines 17-25: the baseURL initialiser.  Outside
production a falsy BASE_URL falls back to the localhost default; in
production a falsy BASE_URL throws. -/
def baseURLInit (nodeEnv baseURL : Option String) : Except String String :=
  if nodeEnv ≠ some "production" then
    .ok (match baseURL with
         | none => defaultBaseURL
         | some s => if s = "" then defaultBaseURL else s)
  else
    match baseURL with
    | none => .error "BASE_URL environment variable is required in production"
    | some s =>
        if s = "" then .error "BASE_URL environment variable is required in production"
        else .ok s

/-- src/src/auth.js lines 26-35: the trustedOrigins initialiser.  A falsy
ALLOWED_ORIGINS falls back to the localhost origins outside production and
throws in production; a truthy value is split on commas and trimmed. -/
def trustedOriginsInit (nodeEnv allowedOrigins : Option String) :
    Except String (List String) :=
  match allowedOrigins with
  | none =>
      if nodeEnv ≠ some "production" then .ok defaultOrigins
      else .error "ALLOWED_ORIGINS environment variable is required in production"
  | some s =>
      if s = "" then
        if nodeEnv ≠ some "production" then .ok defaultOrigins
        else .error "ALLOWED_ORIGINS environment variable is required in production"
      else .ok (splitTrim s)

/-! ### Helper lemmas -/

/-- No lookup succeeds after removing a token: removal is complete. -/
theorem lookupToken_removeToken_self (t : String) (s : StateStore) :
    lookupToken t (removeToken t s) = none := by
  rw [lookupToken, List.find?_eq_none]
  intro e he
  rw [removeToken, List.mem_filter] at he
  simpa using he.2

/-- A lookup fails exactly when no entry carries the token. -/
theorem lookupToken_eq_none_iff (t : String) (s : StateStore) :
    lookupToken t s = none ↔ ∀ e ∈ s, e.token ≠ t := by
  rw [lookupToken, List.find?_eq_none]
  simp

/-- Filtering preserves distinctness of the stored tokens. -/
theorem nodup_tokens_filter (p : StateEntry → Bool) (s : StateStore)
    (h : (s.map StateEntry.token).Nodup) :
    ((s.filter p).map StateEntry.token).Nodup :=
  h.sublist ((List.filter_sublist (p := p) s).map StateEntry.token)

/-- Membership in a sweep's result: the entry survived exactly when it was
present and its age does not exceed the expiry threshold. -/
theorem mem_sweepExpired (now : Nat) (s : StateStore) (e : StateEntry) :
    e ∈ sweepExpired now s ↔ e ∈ s ∧ now - e.createdAt ≤ expiryThresholdMs := by
  rw [sweepExpired, List.mem_filter]
  simp

/-- completeFlow on a present token: the matched entry is returned and its
token is removed from the store. -/
theorem completeFlow_found (t : String) (e : StateEntry) (s : StateStore)
    (ht : t ≠ "") (hfind : lookupToken t s = some e) :
    completeFlow (some t) s = (.success e, removeToken t s) := by
  simp [completeFlow, ht, hfind]

/-- completeFlow on an absent token: unknown-state rejection, store unchanged. -/
theorem completeFlow_absent (t : String) (s : StateStore)
    (ht : t ≠ "") (hfind : lookupToken t s = none) :
    completeFlow (some t) s = (.rejected .unknownState, s) := by
  simp [completeFlow, ht, hfind]

/-- Iterating completeFlow on an absent token only accumulates rejections. -/
theorem completeN_absent (t : String) (n : Nat) (s : StateStore)
    (ht : t ≠ "") (hfind : lookupToken t s = none) :
    completeN (some t) n s
      = (List.replicate n (.rejected .unknownState), s) := by
  induction n with
  | zero => simp [completeN]
  | succ n ih =>
      simp [completeN, completeFlow_absent t s ht hfind, ih, List.replicate_succ]

/-- Every base64url digit lies in the URL-safe alphabet. -/
theorem b64Char_mem (n : Nat) : b64Char n ∈ b64urlAlphabet :=
  List.get_mem _ _ _

/-- Length of the padless base64url encoding of n bytes. -/
theorem base64urlEncode_length (l : List Nat) :
    (base64urlEncode l).length = (4 * l.length + 2) / 3 := by
  induction l using base64urlEncode.induct with
  | case1 => simp [base64urlEncode]
  | case2 b1 => simp [base64urlEncode]
  | case3 b1 b2 => simp [base64urlEncode]
  | case4 b1 b2 b3 rest ih =>
      simp only [base64urlEncode, List.length_cons, ih]
      omega

/-- Every character of a base64url encoding lies in the URL-safe alphabet. -/
theorem base64urlEncode_mem (l : List Nat) :
    ∀ c ∈ base64urlEncode l, c ∈ b64urlAlphabet := by
  induction l using base64urlEncode.induct with
  | case1 => simp [base64urlEncode]
  | case2 b1 =>
      intro c hc
      simp only [base64urlEncode, List.mem_cons, List.not_mem_nil, or_false] at hc
      rcases hc with h | h <;> (subst h; exact b64Char_mem _)
  | case3 b1 b2 =>
      intro c hc
      simp only [base64urlEncode, List.mem_cons, List.not_mem_nil, or_false] at hc
      rcases hc with h | h | h <;> (subst h; exact b64Char_mem _)
  | case4 b1 b2 b3 rest ih =>
      intro c hc
      simp only [base64urlEncode, List.mem_cons] at hc
      rcases hc with h | h | h | h | h
      · subst h; exact b64Char_mem _
      · subst h; exact b64Char_mem _
      · subst h; exact b64Char_mem _
      · subst h; exact b64Char_mem _
      · exact ih c h

/-! ### Claim theorems -/

/-- C1: a token minted by beginFlow validates exactly once.  After the
flow begins, and even after a sweep run at any time before the entry's
expiry, the first completeFlow call with that token returns the matched
StateEntry as success and removes the entry from the StateStore; the
immediately following completeFlow call with the same token is rejected
as unknown state ("not found"). -/
theorem beginFlow_token_single_use
    (bytes : List Nat) (now swp : Nat) (provider cb : String) (s : StateStore)
    (hne : mintToken bytes ≠ "")
    (hexp : swp - now ≤ expiryThresholdMs) :
    completeFlow (some (beginFlow bytes now provider cb s).1)
        (sweepExpired swp (beginFlow bytes now provider cb s).2)
      = (.success ⟨mintToken bytes, now, cb, provider⟩,
         removeToken (mintToken bytes)
           (sweepExpired swp (beginFlow bytes now provider cb s).2))
    ∧ lookupToken (mintToken bytes)
        (completeFlow (some (mintToken bytes))
          (sweepExpired swp (beginFlow bytes now provider cb s).2)).2 = none
    ∧ (completeFlow (some (mintToken bytes))
        (completeFlow (some (mintToken bytes))
          (sweepExpired swp (beginFlow bytes now provider cb s).2)).2).1
      = .rejected .unknownState := by
  have hs2 : sweepExpired swp (beginFlow bytes now provider cb s).2
      = (⟨mintToken bytes, now, cb, provider⟩ : StateEntry) :: sweepExpired swp s := by
    simp only [beginFlow, sweepExpired, List.filter_cons]
    simp
    omega
  have hlook : lookupToken (mintToken bytes)
      ((⟨mintToken bytes, now, cb, provider⟩ : StateEntry) :: sweepExpired swp s)
      = some ⟨mintToken bytes, now, cb, provider⟩ := by
    simp [lookupToken]
  have hfirst : completeFlow (some (mintToken bytes))
      (sweepExpired swp (beginFlow bytes now provider cb s).2)
      = (.success ⟨mintToken bytes, now, cb, provider⟩,
         removeToken (mintToken bytes)
           (sweepExpired swp (beginFlow bytes now provider cb s).2)) := by
    rw [hs2]
    exact completeFlow_found _ _ _ hne hlook
  refine ⟨by simpa [beginFlow] using hfirst, ?_, ?_⟩
  · rw [hfirst]
    exact lookupToken_removeToken_self _ _
  · rw [hfirst]
    rw [completeFlow_absent _ _ hne (lookupToken_removeToken_self _ _)]

/-- C1 witness: a concrete run — fresh store, 32 entropy bytes, a sweep
40 seconds after minting — in which the first completeFlow succeeds,
removes the entry, and the second completeFlow rejects. -/
theorem beginFlow_token_single_use_witness :
    completeFlow (some (beginFlow (List.range 32) 1000 "github"
          "https://app.example/dashboard" []).1)
        (sweepExpired 41000 (beginFlow (List.range 32) 1000 "github"
          "https://app.example/dashboard" []).2)
      = (.success ⟨mintToken (List.range 32), 1000,
          "https://app.example/dashboard", "github"⟩,
         removeToken (mintToken (List.range 32))
           (sweepExpired 41000 (beginFlow (List.range 32) 1000 "github"
             "https://app.example/dashboard" []).2))
    ∧ lookupToken (mintToken (List.range 32))
        (completeFlow (some (mintToken (List.range 32)))
          (sweepExpired 41000 (beginFlow (List.range 32) 1000 "github"
            "https://app.example/dashboard" []).2)).2 = none
    ∧ (completeFlow (some (mintToken (List.range 32)))
        (completeFlow (some (mintToken (List.range 32)))
          (sweepExpired 41000 (beginFlow (List.range 32) 1000 "github"
            "https://app.example/dashboard" []).2)).2).1
      = .rejected .unknownState :=
  beginFlow_token_single_use (List.range 32) 1000 41000 "github"
    "https://app.example/dashboard" [] (by decide) (by decide)

/-- C2: the background sweep's interval is the fixed 5 minutes and, on
each run, it keeps exactly the entries whose age now - createdAt does not
exceed the 10-minute expiry threshold: an entry is removed iff its age
exceeds the threshold, and no younger entry is ever removed. -/
theorem sweepExpired_exact :
    sweepIntervalMs = 5 * 60 * 1000
    ∧ expiryThresholdMs = 10 * 60 * 1000
    ∧ ∀ (now : Nat) (s : StateStore) (e : StateEntry),
        (e ∈ sweepExpired now s ↔ e ∈ s ∧ ¬ expiryThresholdMs < now - e.createdAt) := by
  refine ⟨rfl, rfl, fun now s e => ?_⟩
  rw [mem_sweepExpired, Nat.not_lt]

/-- C3: a token minted from the 32 bytes drawn from the secure random
source is their base64url encoding: 43 characters (no padding), every
character in the URL-safe alphabet, and no padding character at all. -/
theorem mintToken_base64url (bytes : List Nat) (h : bytes.length = 32) :
    (mintToken bytes).length = 43
    ∧ (∀ c ∈ (mintToken bytes).data, c ∈ b64urlAlphabet)
    ∧ '=' ∉ (mintToken bytes).data := by
  have hdata : (mintToken bytes).data = base64urlEncode bytes := rfl
  have hlen : (mintToken bytes).length = (base64urlEncode bytes).length := rfl
  refine ⟨?_, ?_, ?_⟩
  · rw [hlen, base64urlEncode_length, h]
  · rw [hdata]; exact base64urlEncode_mem bytes
  · rw [hdata]
    intro hmem
    exact absurd (base64urlEncode_mem bytes '=' hmem) (by decide)

/-- C3 witness: the encoding facts evaluated at a concrete 32-byte input. -/
theorem mintToken_base64url_witness :
    (mintToken (List.range 32)).length = 43
    ∧ (∀ c ∈ (mintToken (List.range 32)).data, c ∈ b64urlAlphabet)
    ∧ '=' ∉ (mintToken (List.range 32)).data :=
  mintToken_base64url (List.range 32) (by decide)

/-- C4: the StateStore invariant is preserved by every operation.  On a
store with distinct tokens: a beginFlow insert with a fresh token keeps
tokens distinct and adds exactly the guard-created entry; a completeFlow
take keeps tokens distinct and only ever removes entries; a sweep keeps
tokens distinct and removes exactly the expired entries; and removal is
exactly-once — after a successful one-time consumption the token is gone
from the store and a repeated take rejects instead of removing again. -/
theorem stateStore_invariant
    (s : StateStore) (bytes : List Nat) (now : Nat) (provider cb t : String)
    (hnd : (s.map StateEntry.token).Nodup)
    (hfresh : lookupToken (mintToken bytes) s = none) :
    (((beginFlow bytes now provider cb s).2.map StateEntry.token).Nodup
      ∧ ∀ e, e ∈ (beginFlow bytes now provider cb s).2 ↔
          e = ⟨mintToken bytes, now, cb, provider⟩ ∨ e ∈ s)
    ∧ (((completeFlow (some t) s).2.map StateEntry.token).Nodup
      ∧ ∀ e, e ∈ (completeFlow (some t) s).2 → e ∈ s)
    ∧ (((sweepExpired now s).map StateEntry.token).Nodup
      ∧ ∀ e, e ∈ sweepExpired now s ↔ e ∈ s ∧ now - e.createdAt ≤ expiryThresholdMs)
    ∧ (∀ e, (completeFlow (some t) s).1 = .success e →
        lookupToken t (completeFlow (some t) s).2 = none
        ∧ (completeFlow (some t) ((completeFlow (some t) s).2)).1
            = .rejected .unknownState) := by
  have hnotin : mintToken bytes ∉ s.map StateEntry.token := by
    rw [lookupToken_eq_none_iff] at hfresh
    intro hmem
    rcases List.mem_map.1 hmem with ⟨e, he, hetok⟩
    exact hfresh e he hetok
  have hcf2 : ∀ e, e ∈ (completeFlow (some t) s).2 → e ∈ s := by
    intro e he
    by_cases ht : t = ""
    · simpa [completeFlow, ht] using he
    · cases hl : lookupToken t s with
      | none => rw [completeFlow_absent t s ht hl] at he; exact he
      | some e0 =>
          rw [completeFlow_found t e0 s ht hl] at he
          exact (List.mem_filter.1 he).1
  have hcfnd : ((completeFlow (some t) s).2.map StateEntry.token).Nodup := by
    by_cases ht : t = ""
    · simpa [completeFlow, ht] using hnd
    · cases hl : lookupToken t s with
      | none => rw [completeFlow_absent t s ht hl]; exact hnd
      | some e0 =>
          rw [completeFlow_found t e0 s ht hl]
          exact nodup_tokens_filter _ s hnd
  refine ⟨⟨?_, ?_⟩, ⟨hcfnd, hcf2⟩, ⟨nodup_tokens_filter _ s hnd, mem_sweepExpired now s⟩, ?_⟩
  · have hpair : (beginFlow bytes now provider cb s).2
        = (⟨mintToken bytes, now, cb, provider⟩ : StateEntry) :: s := rfl
    rw [hpair, List.map_cons]
    exact List.nodup_cons.2 ⟨hnotin, hnd⟩
  · intro e; simp [beginFlow]
  · intro e hsucc
    have ht : t ≠ "" := by
      intro ht
      simp [completeFlow, ht] at hsucc
    cases hl : lookupToken t s with
    | none => rw [completeFlow_absent t s ht hl] at hsucc; simp at hsucc
    | some e0 =>
        rw [completeFlow_found t e0 s ht hl]
        exact ⟨lookupToken_removeToken_self t s,
          by rw [completeFlow_absent t _ ht (lookupToken_removeToken_self t s)]⟩

/-- C4 witness: the invariant-preservation facts evaluated on a concrete
one-entry store, fresh entropy, and a present token. -/
theorem stateStore_invariant_witness :
    ((((beginFlow (List.range 32) 7 "google" "https://a.example/cb"
          [⟨"t0", 0, "cb0", "github"⟩]).2.map StateEntry.token).Nodup
      ∧ ∀ e, e ∈ (beginFlow (List.range 32) 7 "google" "https://a.example/cb"
            [⟨"t0", 0, "cb0", "github"⟩]).2 ↔
          e = ⟨mintToken (List.range 32), 7, "https://a.example/cb", "google"⟩
          ∨ e ∈ [⟨"t0", 0, "cb0", "github"⟩])
    ∧ (((completeFlow (some "t0")
            [⟨"t0", 0, "cb0", "github"⟩]).2.map StateEntry.token).Nodup
      ∧ ∀ e, e ∈ (completeFlow (some "t0") [⟨"t0", 0, "cb0", "github"⟩]).2 →
          e ∈ [⟨"t0", 0, "cb0", "github"⟩])
    ∧ (((sweepExpired 7 [⟨"t0", 0, "cb0", "github"⟩]).map StateEntry.token).Nodup
      ∧ ∀ e, e ∈ sweepExpired 7 [⟨"t0", 0, "cb0", "github"⟩] ↔
          e ∈ [⟨"t0", 0, "cb0", "github"⟩] ∧ 7 - e.createdAt ≤ expiryThresholdMs)
    ∧ (∀ e, (completeFlow (some "t0") [⟨"t0", 0, "cb0", "github"⟩]).1 = .success e →
        lookupToken "t0" (completeFlow (some "t0")
          [⟨"t0", 0, "cb0", "github"⟩]).2 = none
        ∧ (completeFlow (some "t0") ((completeFlow (some "t0")
            [⟨"t0", 0, "cb0", "github"⟩]).2)).1 = .rejected .unknownState)) :=
  stateStore_invariant [⟨"t0", 0, "cb0", "github"⟩] (List.range 32) 7
    "google" "https://a.example/cb" "t0" (by decide) (by decide)

/-- C5: with the atomic take serialised, any interleaving of N concurrent
completeFlow calls carrying the same valid token yields exactly one
success — the matched StateEntry, observed by the first serialised
caller — and N - 1 unknown-state ("not found") rejections. -/
theorem completeFlow_concurrent
    (t : String) (e : StateEntry) (s : StateStore) (n : Nat)
    (ht : t ≠ "") (hfind : lookupToken t s = some e) (hn : 1 ≤ n) :
    (completeN (some t) n s).1
      = FlowResult.success e :: List.replicate (n - 1) (.rejected .unknownState)
    ∧ ((completeN (some t) n s).1.countP isSuccess) = 1
    ∧ ((completeN (some t) n s).1.countP (fun r => ! isSuccess r)) = n - 1 := by
  obtain ⟨m, rfl⟩ : ∃ m, n = m + 1 := ⟨n - 1, by omega⟩
  have hlist : (completeN (some t) (m + 1) s).1
      = FlowResult.success e :: List.replicate m (.rejected .unknownState) := by
    have h1 : completeFlow (some t) s = (.success e, removeToken t s) :=
      completeFlow_found t e s ht hfind
    have h2 : completeN (some t) m (removeToken t s)
        = (List.replicate m (.rejected .unknownState), removeToken t s) :=
      completeN_absent t m (removeToken t s) ht (lookupToken_removeToken_self t s)
    simp [completeN, h1, h2]
  have hrepl : ∀ (p : FlowResult → Bool) (k : Nat) (x : FlowResult),
      p x = false → (List.replicate k x).countP p = 0 := by
    intro p k x hx
    induction k with
    | zero => simp
    | succ k ih => simp [List.replicate_succ, List.countP_cons, hx, ih]
  have hrepl2 : ∀ (p : FlowResult → Bool) (k : Nat) (x : FlowResult),
      p x = true → (List.replicate k x).countP p = k := by
    intro p k x hx
    induction k with
    | zero => simp
    | succ k ih => simp [List.replicate_succ, List.countP_cons, hx, ih]
  refine ⟨by simpa using hlist, ?_, ?_⟩
  · rw [hlist, List.countP_cons,
      hrepl isSuccess m (FlowResult.rejected .unknownState) rfl]
    rfl
  · rw [hlist, List.countP_cons,
      hrepl2 (fun r => ! isSuccess r) m (FlowResult.rejected .unknownState) rfl]
    simp [isSuccess]

/-- C5 witness: three serialised callback attempts with the same valid
token on a concrete store — one success, two rejections. -/
theorem completeFlow_concurrent_witness :
    (completeN (some "t1") 3 [⟨"t1", 5, "https://a.example/cb", "google"⟩]).1
      = FlowResult.success ⟨"t1", 5, "https://a.example/cb", "google"⟩
          :: List.replicate 2 (.rejected .unknownState)
    ∧ ((completeN (some "t1") 3
        [⟨"t1", 5, "https://a.example/cb", "google"⟩]).1.countP isSuccess) = 1
    ∧ ((completeN (some "t1") 3
        [⟨"t1", 5, "https://a.example/cb", "google"⟩]).1.countP
          (fun r => ! isSuccess r)) = 2 :=
  completeFlow_concurrent "t1" ⟨"t1", 5, "https://a.example/cb", "google"⟩
    [⟨"t1", 5, "https://a.example/cb", "google"⟩] 3 (by decide) (by decide)
    (by decide)

/-- C6: an absent (undefined-equivalent, modelled as none) or empty token
makes completeFlow return the missing-state rejection with the store
untouched; completeFlow is a total function, so the rejection is a
returned structured outcome, never a thrown fault. -/
theorem completeFlow_missing_state (s : StateStore) :
    completeFlow none s = (.rejected .missingState, s)
    ∧ completeFlow (some "") s = (.rejected .missingState, s) := by
  constructor
  · rfl
  · simp [completeFlow]

/-- C7: for every callback request — whatever completeFlow's outcome on
its state parameter, success or any rejection — the callback interception
point reports exactly that outcome and forwards the request itself,
unmodified, onward; rejection never aborts the pipeline. -/
theorem callbackIntercept_forwards (req : Request) (s : StateStore) :
    (callbackIntercept req s).2.1 = req
    ∧ (callbackIntercept req s).1 = (completeFlow (extractState req) s).1 := by
  constructor <;> rfl

/-- C8: the request the sign-in interception point forwards keeps the
original method, headers and URL; its body is the original JSON body plus
exactly one additional field, state, set to the minted token, and every
other body field is unchanged. -/
theorem signinIntercept_augments (req : Request) (token : String)
    (h : req.body.find? (fun kv => kv.1 == "state") = none) :
    (signinIntercept req token).method = req.method
    ∧ (signinIntercept req token).headers = req.headers
    ∧ (signinIntercept req token).url = req.url
    ∧ (signinIntercept req token).body.length = req.body.length + 1
    ∧ (signinIntercept req token).body.find? (fun kv => kv.1 == "state")
        = some ("state", token)
    ∧ ∀ k, k ≠ "state" →
        (signinIntercept req token).body.find? (fun kv => kv.1 == k)
          = req.body.find? (fun kv => kv.1 == k) := by
  refine ⟨rfl, rfl, rfl, by simp [signinIntercept], ?_, ?_⟩
  · rw [signinIntercept]
    simp only [List.find?_append, h, Option.none_or]
    simp
  · intro k hk
    rw [signinIntercept]
    simp only [List.find?_append]
    have hbe : (("state" : String) == k) = false := by
      simp [Ne.symm hk]
    have hsingle : ([(("state" : String), token)]).find? (fun kv => kv.1 == k)
        = none := by
      simp [List.find?, hbe]
    rw [hsingle, Option.or_none]

/-- C8 witness: the sign-in interception facts evaluated on a concrete
request whose body holds provider and callbackURL and no state field. -/
theorem signinIntercept_augments_witness :
    (signinIntercept ⟨"POST", [("content-type", "application/json")],
        "/api/auth/sign-in/social",
        [("provider", "github"), ("callbackURL", "https://app.example/dashboard")],
        []⟩ "tok1").method = "POST"
    ∧ (signinIntercept ⟨"POST", [("content-type", "application/json")],
        "/api/auth/sign-in/social",
        [("provider", "github"), ("callbackURL", "https://app.example/dashboard")],
        []⟩ "tok1").headers = [("content-type", "application/json")]
    ∧ (signinIntercept ⟨"POST", [("content-type", "application/json")],
        "/api/auth/sign-in/social",
        [("provider", "github"), ("callbackURL", "https://app.example/dashboard")],
        []⟩ "tok1").url = "/api/auth/sign-in/social"
    ∧ (signinIntercept ⟨"POST", [("content-type", "application/json")],
        "/api/auth/sign-in/social",
        [("provider", "github"), ("callbackURL", "https://app.example/dashboard")],
        []⟩ "tok1").body.length
      = [(("provider" : String), ("github" : String)),
         ("callbackURL", "https://app.example/dashboard")].length + 1
    ∧ (signinIntercept ⟨"POST", [("content-type", "application/json")],
        "/api/auth/sign-in/social",
        [("provider", "github"), ("callbackURL", "https://app.example/dashboard")],
        []⟩ "tok1").body.find? (fun kv => kv.1 == "state") = some ("state", "tok1")
    ∧ ∀ k, k ≠ "state" →
        (signinIntercept ⟨"POST", [("content-type", "application/json")],
          "/api/auth/sign-in/social",
          [("provider", "github"), ("callbackURL", "https://app.example/dashboard")],
          []⟩ "tok1").body.find? (fun kv => kv.1 == k)
          = [(("provider" : String), ("github" : String)),
             ("callbackURL", "https://app.example/dashboard")].find?
              (fun kv => kv.1 == k) :=
  signinIntercept_augments ⟨"POST", [("content-type", "application/json")],
    "/api/auth/sign-in/social",
    [("provider", "github"), ("callbackURL", "https://app.example/dashboard")],
    []⟩ "tok1" (by decide)

/-- C9: evaluating the secret initialiser of the auth configuration
module (src/src/auth.js lines 8-16, run at module load by an
immediately-invoked function, hence before any request is served) throws
exactly when BETTER_AUTH_SECRET is unset or shorter than 32 characters;
otherwise the configured secret is the variable's value unchanged. -/
theorem secretInit_characterisation (v : Option String) :
    ((∃ msg, secretInit v = .error msg)
      ↔ v = none ∨ ∃ s, v = some s ∧ s.length < 32)
    ∧ ∀ s, v = some s → 32 ≤ s.length → secretInit v = .ok s := by
  constructor
  · cases v with
    | none => simp [secretInit]
    | some s =>
        by_cases hs : s = ""
        · subst hs
          simp [secretInit]
        · by_cases hlen : s.length < 32
          · simp [secretInit, hs, hlen]
          · simp [secretInit, hs, hlen]
  · intro s hv hlen
    subst hv
    have hs : s ≠ "" := by
      intro h
      subst h
      simp at hlen
    simp [secretInit, hs, Nat.not_lt.2 hlen]

/-- C10 counterexample: ALLOWED_ORIGINS set to the empty string is
falsy in JavaScript, so outside production the code falls back to the
localhost defaults instead of the comma-split, whitespace-trimmed parse
(which would be the singleton list of the empty string). -/
theorem trustedOrigins_empty_not_parsed :
    trustedOriginsInit none (some "") = .ok defaultOrigins
    ∧ splitTrim "" = [""]
    ∧ trustedOriginsInit none (some "") ≠ .ok (splitTrim "") := by
  refine ⟨rfl, by decide, ?_⟩
  intro h
  exact absurd (Except.ok.inj h) (by decide)

/-- C10 (amended): in production a missing BASE_URL or a missing
ALLOWED_ORIGINS throws at load time; outside production a missing
BASE_URL defaults to http://localhost:3002 and a missing ALLOWED_ORIGINS
defaults to the two localhost origins; and an ALLOWED_ORIGINS set to a
non-empty string is always parsed as the comma-split, whitespace-trimmed
origin list (an empty-string value is falsy and treated as unset). -/
theorem authConfig_env_characterisation
    (nodeEnv baseURL allowedOrigins : Option String) :
    (nodeEnv = some "production" → baseURL = none →
        baseURLInit nodeEnv baseURL
          = .error "BASE_URL environment variable is required in production")
    ∧ (nodeEnv = some "production" → allowedOrigins = none →
        trustedOriginsInit nodeEnv allowedOrigins
          = .error "ALLOWED_ORIGINS environment variable is required in production")
    ∧ (nodeEnv ≠ some "production" → baseURLInit nodeEnv none = .ok defaultBaseURL)
    ∧ (nodeEnv ≠ some "production" →
        trustedOriginsInit nodeEnv none = .ok defaultOrigins)
    ∧ (∀ s, s ≠ "" → trustedOriginsInit nodeEnv (some s) = .ok (splitTrim s)) := by
  refine ⟨?_, ?_, ?_, ?_, ?_⟩
  · intro h1 h2
    subst h1; subst h2
    simp [baseURLInit]
  · intro h1 h2
    subst h1; subst h2
    simp [trustedOriginsInit]
  · intro h1
    simp [baseURLInit, h1]
  · intro h1
    simp [trustedOriginsInit, h1]
  · intro s hs
    simp [trustedOriginsInit, hs]

end AuthSystem
